import Mathlib

/-!
Verification development for the CKS repository.

Byte buffers (Node.js `Buffer`) are modelled as `List Nat`, one entry per
byte.  `Buffer.alloc n` is `List.replicate n 0`; the `writeUInt8`,
`writeUInt16BE/LE`, `writeUInt32BE/LE`, `writeInt16LE`, `write` (ASCII) and
`fill` operations are modelled with `List.set`, which matches Node semantics
at in-range offsets (all offsets used by the verified code paths are
in range for the sizes in question).
-/

namespace CKS

/-- Model of `buf.writeUInt8(v, off)` for an in-range byte value. -/
def writeUInt8 (buf : List Nat) (v off : Nat) : List Nat :=
  buf.set off v

/-- Model of `buf.writeUInt16BE(v, off)`: big-endian, low 16 bits of `v`. -/
def writeUInt16BE (buf : List Nat) (v off : Nat) : List Nat :=
  ((buf.set off (v / 256 % 256)).set (off + 1) (v % 256))

/-- Model of `buf.writeUInt16LE(v, off)`: little-endian, low 16 bits of `v`. -/
def writeUInt16LE (buf : List Nat) (v off : Nat) : List Nat :=
  ((buf.set off (v % 256)).set (off + 1) (v / 256 % 256))

/-- Model of `buf.writeUInt32BE(v, off)`: big-endian, low 32 bits of `v`. -/
def writeUInt32BE (buf : List Nat) (v off : Nat) : List Nat :=
  ((((buf.set off (v / 16777216 % 256)).set (off + 1) (v / 65536 % 256)).set
      (off + 2) (v / 256 % 256)).set (off + 3) (v % 256))

/-- Model of `buf.writeUInt32LE(v, off)`: little-endian, low 32 bits of `v`. -/
def writeUInt32LE (buf : List Nat) (v off : Nat) : List Nat :=
  ((((buf.set off (v % 256)).set (off + 1) (v / 256 % 256)).set
      (off + 2) (v / 65536 % 256)).set (off + 3) (v / 16777216 % 256))

/-- Two's-complement 16-bit image of a signed value, as a natural number. -/
def toUInt16 (v : Int) : Nat :=
  (v % 65536).toNat

/-- Model of `buf.writeInt16LE(v, off)`: little-endian two's complement. -/
def writeInt16LE (buf : List Nat) (v : Int) (off : Nat) : List Nat :=
  ((buf.set off (toUInt16 v % 256)).set (off + 1) (toUInt16 v / 256 % 256))

/-- Model of `buf.write(s, off)` for an ASCII string: one byte per char. -/
def writeAscii (buf : List Nat) (s : String) (off : Nat) : List Nat :=
  (List.range s.length).foldl
    (fun b i => b.set (off + i) ((s.toList.getD i ' ').toNat)) buf

/-- Model of `buf.fill(v, from, to)`: sets positions `from ≤ i < to`. -/
def fillRange (buf : List Nat) (v lo hi : Nat) : List Nat :=
  (List.range (hi - lo)).foldl (fun b j => b.set (lo + j) v) buf

/-- Model of `buf.readUInt32BE(off)` (big-endian read of four bytes). -/
def readUInt32BE (buf : List Nat) (off : Nat) : Nat :=
  buf.getD off 0 * 16777216 + buf.getD (off + 1) 0 * 65536 +
    buf.getD (off + 2) 0 * 256 + buf.getD (off + 3) 0

/-- Model of `buf.readUInt32LE(off)` (little-endian read of four bytes). -/
def readUInt32LE (buf : List Nat) (off : Nat) : Nat :=
  buf.getD off 0 + buf.getD (off + 1) 0 * 256 +
    buf.getD (off + 2) 0 * 65536 + buf.getD (off + 3) 0 * 16777216

/-! ## WAV builder (`generateRealAudioFile`, src/src/app/api/real-media/route.ts)

`sampleRate = 44100`, `duration = 3`, `frequency = 440`; the audio samples
are `Math.floor(Math.sin(2*pi*frequency*i/sampleRate) * 0.5 * 32767)`, an
IEEE-float computation whose exact values are irrelevant to the verified
size and header properties, so the per-index sample value is a parameter. -/

def wavSampleRate : Nat := 44100

def wavDuration : Nat := 3

def wavNumSamples : Nat := wavSampleRate * wavDuration

/-- The 44-byte RIFF/WAVE/fmt/data header, with each write transcribed from
`generateRealAudioFile`. -/
def wavHeader : List Nat :=
  let b := List.replicate 44 0
  let b := writeAscii b "RIFF" 0
  let b := writeUInt32LE b (36 + wavNumSamples * 2) 4
  let b := writeAscii b "WAVE" 8
  let b := writeAscii b "fmt " 12
  let b := writeUInt32LE b 16 16
  let b := writeUInt16LE b 1 20
  let b := writeUInt16LE b 1 22
  let b := writeUInt32LE b wavSampleRate 24
  let b := writeUInt32LE b (wavSampleRate * 2) 28
  let b := writeUInt16LE b 2 32
  let b := writeUInt16LE b 16 34
  let b := writeAscii b "data" 36
  writeUInt32LE b (wavNumSamples * 2) 40

/-- The PCM body: for each sample index `i`, `writeInt16LE(sample i, i*2)`
into a zero-initialised buffer of `numSamples * 2` bytes. -/
def wavAudioData (sample : Nat → Int) : List Nat :=
  (List.range wavNumSamples).foldl
    (fun b i => writeInt16LE b (sample i) (i * 2))
    (List.replicate (wavNumSamples * 2) 0)

/-- Model of `generateRealAudioFile`: header concatenated with PCM body. -/
def generateRealAudioFile (sample : Nat → Int) : List Nat :=
  wavHeader ++ wavAudioData sample

/-! ## MP4-like builder (`generateYouTubeVideo`, src/src/app/api/files/route.ts)

`Date.now()/1000` is a runtime value, so creation/modification timestamps
are a parameter `now`.  The mdat fill uses `Math.random()` bytes (positions
divisible by 50 but not 100) and the clamped-sine bytes
`Math.floor(Math.max(0, Math.min(255, Math.sin(i*0.01)*127 + 128)))`
(all other non-marker positions); both are IEEE-float computations and are
parameters `rand` and `sine` of the model.  Since `Math.sin` ranges over
`[-1,1]`, the clamped-sine byte always lies in `[1,255]`; theorems that
need this carry it as a hypothesis on `sine`. -/

/-- The fixed 32-byte ftyp box literal. -/
def ftypBytes : List Nat :=
  [0x00, 0x00, 0x00, 0x20, 0x66, 0x74, 0x79, 0x70, 0x69, 0x73, 0x6F, 0x6D,
   0x00, 0x00, 0x02, 0x00, 0x69, 0x73, 0x6F, 0x6D, 0x69, 0x73, 0x6F, 0x32,
   0x61, 0x76, 0x63, 0x31, 0x6D, 0x70, 0x34, 0x31]

/-- The 108-byte mvhd box, one write per source line. -/
def mvhdBox (now dur : Nat) : List Nat :=
  let b := List.replicate 108 0
  let b := writeUInt32BE b 108 0
  let b := writeAscii b "mvhd" 4
  let b := writeUInt32BE b 0 8
  let b := writeUInt32BE b now 12
  let b := writeUInt32BE b now 16
  let b := writeUInt32BE b 1000 20
  let b := writeUInt32BE b dur 24
  let b := writeUInt32BE b 65536 28
  let b := writeUInt16BE b 256 32
  let b := fillRange b 0 34 76
  let b := writeUInt32BE b 65536 76
  let b := writeUInt32BE b 0 80
  let b := writeUInt32BE b 0 84
  let b := writeUInt32BE b 0 88
  let b := writeUInt32BE b 65536 92
  let b := writeUInt32BE b 0 96
  let b := writeUInt32BE b 0 100
  writeUInt32BE b 0 104

/-- The 92-byte tkhd box, one write per source line. -/
def tkhdBox (now dur width height : Nat) : List Nat :=
  let b := List.replicate 92 0
  let b := writeUInt32BE b 92 0
  let b := writeAscii b "tkhd" 4
  let b := writeUInt32BE b 7 8
  let b := writeUInt32BE b now 12
  let b := writeUInt32BE b now 16
  let b := writeUInt32BE b 1 20
  let b := writeUInt32BE b 0 24
  let b := writeUInt32BE b dur 28
  let b := fillRange b 0 32 44
  let b := writeUInt16BE b 1 44
  let b := writeUInt16BE b 0 46
  let b := writeUInt16BE b 0 48
  let b := fillRange b 0 50 52
  let b := writeUInt32BE b 65536 52
  let b := writeUInt32BE b 0 56
  let b := writeUInt32BE b 0 60
  let b := writeUInt32BE b 0 64
  let b := writeUInt32BE b 65536 68
  let b := writeUInt32BE b 0 72
  let b := writeUInt32BE b 0 76
  let b := writeUInt32BE b 0 80
  let b := writeUInt32BE b width 84
  writeUInt32BE b height 88

/-- One iteration of the mdat fill loop.  Writes go at byte `i + 8` of the
mdat box buffer (the payload starts after the 8-byte box header), exactly
as in the source: a marker iteration writes four bytes at `i+8 .. i+11`,
the other branches write a single byte at `i+8`. -/
def mdatStep (sine rand : Nat → Nat) (buf : List Nat) (i : Nat) : List Nat :=
  if i % 100 = 0 then
    ((((buf.set (i + 8) 0).set (i + 9) 0).set (i + 10) 1).set (i + 11)
      (if i % 3 = 0 then 0x67 else 0x41))
  else if i % 50 = 0 then buf.set (i + 8) (rand i)
  else buf.set (i + 8) (sine i)

/-- The full mdat box: `Buffer.alloc(size+8)`, box size, tag, then the
fill loop for `i = 0 .. size-1`. -/
def mdatBox (sine rand : Nat → Nat) (size : Nat) : List Nat :=
  (List.range size).foldl (mdatStep sine rand)
    (writeAscii (writeUInt32BE (List.replicate (size + 8) 0) (size + 8) 0) "mdat" 4)

/-- The mdat payload: the box minus its 8-byte header. -/
def mdatPayload (sine rand : Nat → Nat) (size : Nat) : List Nat :=
  (mdatBox sine rand size).drop 8

/-- The byte the loop leaves at payload position `i`: position `i` is
written for the last time by iteration `i` itself (marker iterations
`j ∈ {i-1, i-2, i-3}` that also touch it come earlier). -/
def mdatFinalByte (sine rand : Nat → Nat) (i : Nat) : Nat :=
  if i % 100 = 0 then 0 else if i % 50 = 0 then rand i else sine i

/-- Splitting a character list at `/` characters, modelling the component
split JS `split('/')` performs. -/
def splitChars : List Char → List (List Char)
  | [] => [[]]
  | c :: t =>
    if c = '/' then [] :: splitChars t
    else
      match splitChars t with
      | [] => [[c]]
      | h :: r => (c :: h) :: r

/-- Splitting a string at `/` separators. -/
def splitSlash (s : String) : List String :=
  (splitChars s.toList).map String.mk

/-- Model of JS `s.trim()`: strip leading and trailing whitespace. -/
def trimStr (s : String) : String :=
  String.mk (((s.toList.dropWhile Char.isWhitespace).reverse.dropWhile
    Char.isWhitespace).reverse)

/-- Substring occurrence on character lists, modelling JS `includes`. -/
def hasSub (needle : List Char) : List Char → Bool
  | [] => needle.isEmpty
  | c :: t => needle.isPrefixOf (c :: t) || hasSub needle t

/-- Model of JS `s.includes(sub)`. -/
def containsStr (s sub : String) : Bool :=
  hasSub sub.toList s.toList

/-- The mdat payload size chosen by `generateYouTubeVideo`:
`is720p = filename.includes('720p')`, 800000 bytes for 720p, else 300000. -/
def ytMdatSize (fname : String) : Nat :=
  if containsStr fname "720p" then 800000 else 300000

/-- Model of `generateYouTubeVideo(filename)`:
concat of ftyp, mvhd, tkhd and mdat, then the whole-file size is written
big-endian over the first four bytes (`result.writeUInt32BE(totalSize, 0)`). -/
def generateYouTubeVideo (fname : String) (now : Nat) (sine rand : Nat → Nat) :
    List Nat :=
  let is720p := containsStr fname "720p"
  let dur := if is720p then 9000 else 6000
  let ftyp := ftypBytes
  let mvhd := mvhdBox now dur
  let tkhd := tkhdBox now dur (if is720p then 1280 else 640)
    (if is720p then 720 else 360)
  let mdat := mdatBox sine rand (ytMdatSize fname)
  let totalSize := ftyp.length + mvhd.length + tkhd.length + mdat.length
  writeUInt32BE (ftyp ++ mvhd ++ tkhd ++ mdat) totalSize 0

/-- A concrete instance of the clamped-sine fill byte, used for evaluating
the builder at small sizes.  At index 1 the source computes
`Math.floor(Math.sin(0.01) * 127 + 128)`; `sin(0.01) = 0.0099998...`, so
the byte is `Math.floor(129.2699...) = 129`.  Elsewhere the stand-in value
128 is used; every value of the source fill lies in `[1, 255]` because
`sin` ranges over `[-1, 1]`. -/
def sineC : Nat → Nat := fun i => if i = 1 then 129 else 128

/-- A concrete instance of the `Math.floor(Math.random()*256)` fill byte
(any value in `[0, 255]` is possible; `0` is used). -/
def randC : Nat → Nat := fun _ => 0

/-! ## Fallback Chain Executor (`searchWithFallback`, src/unnamed/part_000)

Each producer is a zero-argument async function; its observable outcome is
either a thrown error or a returned list, modelled as `Except`.  The loop
`for (const method of methods) try { const results = await method(); if
(results.length > 0) return results } catch { continue }; return []` is
`runFallback`. -/

/-- The fallback loop: first non-empty success wins, errors are swallowed,
empty successes are skipped, and the trailing return yields `[]`. -/
def runFallback {ε α : Type} : List (Except ε (List α)) → List α
  | [] => []
  | Except.error _ :: rest => runFallback rest
  | Except.ok r :: rest => if r.length > 0 then r else runFallback rest

/-- A search result record, as produced by every search producer. -/
structure SearchResult where
  title : String
  url : String
  snippet : String
  position : Nat
deriving DecidableEq

/-- The fixed one-element list returned by the local fallback producer that
`searchWithFallback` always registers last. -/
def localFallbackResult (q : String) : SearchResult :=
  { title := "About \"" ++ q ++ "\""
    url := "https://example.com"
    snippet := "External search is not configured or temporarily unavailable. This is a local fallback summary."
    position := 1 }

/-- Model of the concrete `searchWithFallback` of src/unnamed/part_000: the
Serper producer is registered only when `SERPER_API_KEY` is set, the ZAI
producer only when `ZAI_ENABLED` is `"1"` (each modelled as an optional
outcome), and the local fallback producer is always pushed last.  The body
then runs the fallback loop. -/
def searchWithFallback (serper zai : Option (Except String (List SearchResult)))
    (q : String) : List SearchResult :=
  runFallback (serper.toList ++ zai.toList ++
    [Except.ok [localFallbackResult q]])

/-! ## Query-type classifier (`determineQueryType`, src/src/app/api/chat/route.ts) -/

/-- ASCII lowercasing of one character (JS `toLowerCase` on the ASCII
queries the classifier handles). -/
def lowerChar (c : Char) : Char :=
  if 'A' ≤ c ∧ c ≤ 'Z' then Char.ofNat (c.toNat + 32) else c

/-- ASCII lowercasing of a string. -/
def lowerStr (s : String) : String :=
  String.mk (s.toList.map lowerChar)

/-- Model of JS `s.startsWith(pre)`. -/
def startsWithStr (s pre : String) : Bool :=
  pre.toList.isPrefixOf s.toList

/-- Model of JS `s.endsWith(suf)`. -/
def endsWithStr (s suf : String) : Bool :=
  suf.toList.isSuffixOf s.toList

/-- Model of `determineQueryType`: the ordered chain of prefix and
substring checks on the lowercased query. -/
def determineQueryType (query : String) : String :=
  let lq := lowerStr query
  if startsWithStr lq "what is" || startsWithStr lq "define" then "definition"
  else if startsWithStr lq "how to" || containsStr lq "how do" then "howto"
  else if startsWithStr lq "why" || containsStr lq "reason" then "explanation"
  else if containsStr lq "compare" || containsStr lq "vs" ||
    containsStr lq "versus" then "comparison"
  else if containsStr lq "review" || containsStr lq "rating" ||
    containsStr lq "opinion" then "review"
  else if containsStr lq "history" || containsStr lq "origin" then "historical"
  else if containsStr lq "news" || containsStr lq "recent" ||
    containsStr lq "latest" then "news"
  else if containsStr lq "benefit" || containsStr lq "advantage" ||
    containsStr lq "pro" then "benefits"
  else if containsStr lq "disadvantage" || containsStr lq "con" ||
    containsStr lq "risk" then "drawbacks"
  else "general"

/-! ## GET /files handler (src/src/app/api/files/route.ts)

The flat-file store is a map from resolved path (a list of path segments)
to file bytes.  `path.join(process.cwd(), 'db', filename)` both joins and
normalises, so the model splits the attacker-controlled filename on `/`
and normalises `.`, `..` and empty segments the way Node does. -/

/-- Node path normalisation over segments (below an absolute root):
empty and `.` segments vanish, `..` pops the previous segment. -/
def normSegs (segs : List String) : List String :=
  segs.foldl
    (fun acc s =>
      if s = "" ∨ s = "." then acc
      else if s = ".." then acc.dropLast
      else acc ++ [s]) []

/-- Model of `path.join(process.cwd(), 'db', filename)`: the working
directory is a segment list, the filename is split on `/`. -/
def joinPath (cwd : List String) (f : String) : List String :=
  normSegs (cwd ++ ["db"] ++ splitSlash f)

/-- Characters of the last `/`-separated component. -/
def lastComponent (cs : List Char) : List Char :=
  cs.foldl (fun acc c => if c = '/' then [] else acc ++ [c]) []

/-- Model of `path.extname`: the suffix of the basename from its last dot,
empty when there is no dot or the only dot is the leading one. -/
def extnameStr (f : String) : String :=
  let base := lastComponent f.toList
  let idxs := (List.range base.length).filter (fun i => base.getD i ' ' = '.')
  match idxs.getLast? with
  | none => ""
  | some i => if i = 0 then "" else String.mk (base.drop i)

/-- The sequential `if` chain assigning `contentType` from the lowercased
extension; the initial value is the generic binary type. -/
def mimeFor (f : String) : String :=
  let ext := lowerStr (extnameStr f)
  let ct := "application/octet-stream"
  let ct := if ext = ".jpg" ∨ ext = ".jpeg" then "image/jpeg" else ct
  let ct := if ext = ".png" then "image/png" else ct
  let ct := if ext = ".svg" then "image/svg+xml" else ct
  let ct := if ext = ".mp3" then "audio/mpeg" else ct
  let ct := if ext = ".mp4" then "video/mp4" else ct
  if ext = ".txt" then "text/plain" else ct

/-- On-demand synthesis eligibility:
`filename.includes('youtube_') && filename.endsWith('.mp4')`. -/
def eligibleForSynthesis (f : String) : Bool :=
  containsStr f "youtube_" && endsWithStr f ".mp4"

/-- An HTTP response, with only the fields the claims talk about. -/
structure HttpResp where
  status : Nat
  contentType : Option String := none
  attachment : Option String := none
  bytes : Option (List Nat) := none
  errorMsg : Option String := none
deriving DecidableEq

/-- Model of the GET /files try-block: 400 on a falsy filename (absent or
empty), then lookup at the joined path, on-demand synthesis for eligible
missing files (the write-back to disk is a side effect outside the
response), else 404.  Success carries the extension-derived content type
and an attachment disposition naming the file. -/
def filesGET (cwd : List String) (store : List String → Option (List Nat))
    (now : Nat) (sine rand : Nat → Nat) (fname? : Option String) : HttpResp :=
  match fname? with
  | none => { status := 400, errorMsg := some "Filename is required" }
  | some f =>
    if f = "" then { status := 400, errorMsg := some "Filename is required" }
    else
      match store (joinPath cwd f) with
      | some b =>
        { status := 200, contentType := some (mimeFor f),
          attachment := some f, bytes := some b }
      | none =>
        if eligibleForSynthesis f then
          { status := 200, contentType := some (mimeFor f),
            attachment := some f,
            bytes := some (generateYouTubeVideo f now sine rand) }
        else { status := 404, errorMsg := some "File not found" }

/-- The catch wrapper of GET /files: an error escaping the try block is
answered with status 500 and a generic message. -/
def filesGETCaught (outcome : Except String HttpResp) : HttpResp :=
  match outcome with
  | Except.ok r => r
  | Except.error _ =>
    { status := 500, errorMsg := some "Failed to download file" }

/-- A one-file concrete store (under working directory `["app"]`) used to
evaluate the handler on concrete requests. -/
def storeC : List String → Option (List Nat) :=
  fun p => if p = ["app", "db", "a.txt"] then some [104, 105] else none

/-! ## POST /chat handler (src/src/app/api/chat/route.ts and the
src/unnamed/part_000 variants) -/

/-- A chat response, with only the fields the claims talk about. -/
structure ChatResp where
  status : Nat
  response : Option String := none
  errorText : Option String := none
  sources : List SearchResult := []
deriving DecidableEq

/-- The generic apology the catch-all path returns. -/
def chatApology : String :=
  "I apologize, but something went wrong. Please try again later."

/-- Model of the POST /chat handler: `message?` is `body?.message` (absent
body or field gives `none`), the trimmed message is falsy-checked for the
400 path, and `work` is the outcome of the search-and-synthesis body,
which may throw.  The catch-all path answers with the apology text, the
original error text attached, and `NextResponse.json` with no init, whose
status defaults to 200. -/
def chatPOST (message? : Option String)
    (work : Except String (String × List SearchResult)) : ChatResp :=
  match message? with
  | none => { status := 400, errorText := some "Message is required" }
  | some m =>
    if trimStr m = "" then
      { status := 400, errorText := some "Message is required" }
    else
      match work with
      | Except.ok (resp, srcs) =>
        { status := 200, response := some resp, sources := srcs }
      | Except.error e =>
        { status := 200, response := some chatApology,
          errorText := some e, sources := [] }

/-! ## Helper lemmas -/

theorem length_foldl_set {α : Type} (l : List α) (f : List Nat → α → List Nat)
    (h : ∀ b a, (f b a).length = b.length) (buf : List Nat) :
    (l.foldl f buf).length = buf.length := by
  induction l generalizing buf with
  | nil => rfl
  | cons x xs ih => simpa [List.foldl_cons, h] using ih (f buf x)

@[simp] theorem length_writeUInt8 (buf : List Nat) (v off : Nat) :
    (writeUInt8 buf v off).length = buf.length := by
  simp [writeUInt8]

@[simp] theorem length_writeUInt16BE (buf : List Nat) (v off : Nat) :
    (writeUInt16BE buf v off).length = buf.length := by
  simp [writeUInt16BE]

@[simp] theorem length_writeUInt16LE (buf : List Nat) (v off : Nat) :
    (writeUInt16LE buf v off).length = buf.length := by
  simp [writeUInt16LE]

@[simp] theorem length_writeUInt32BE (buf : List Nat) (v off : Nat) :
    (writeUInt32BE buf v off).length = buf.length := by
  simp [writeUInt32BE]

@[simp] theorem length_writeUInt32LE (buf : List Nat) (v off : Nat) :
    (writeUInt32LE buf v off).length = buf.length := by
  simp [writeUInt32LE]

@[simp] theorem length_writeInt16LE (buf : List Nat) (v : Int) (off : Nat) :
    (writeInt16LE buf v off).length = buf.length := by
  simp [writeInt16LE]

@[simp] theorem length_writeAscii (buf : List Nat) (s : String) (off : Nat) :
    (writeAscii buf s off).length = buf.length := by
  unfold writeAscii
  exact length_foldl_set _ _ (fun b a => by simp) buf

@[simp] theorem length_fillRange (buf : List Nat) (v lo hi : Nat) :
    (fillRange buf v lo hi).length = buf.length := by
  unfold fillRange
  exact length_foldl_set _ _ (fun b a => by simp) buf

/-- Reading back a 32-bit big-endian write at offset 0 recovers the value,
for values below 2^32 and buffers of length at least 4. -/
theorem readUInt32BE_writeUInt32BE (buf : List Nat) (v : Nat)
    (hlen : 4 ≤ buf.length) (hv : v < 4294967296) :
    readUInt32BE (writeUInt32BE buf v 0) 0 = v := by
  have h0 : (0 : Nat) < buf.length := by omega
  have h1 : (1 : Nat) < buf.length := by omega
  have h2 : (2 : Nat) < buf.length := by omega
  have h3 : (3 : Nat) < buf.length := by omega
  simp only [readUInt32BE, writeUInt32BE, List.getD_eq_getElem?_getD]
  rw [List.getElem?_set_ne (by omega : (3:Nat) ≠ 0),
      List.getElem?_set_ne (by omega : (2:Nat) ≠ 0),
      List.getElem?_set_ne (by omega : (1:Nat) ≠ 0),
      List.getElem?_set_self h0]
  rw [List.getElem?_set_ne (by omega : (3:Nat) ≠ 1),
      List.getElem?_set_ne (by omega : (2:Nat) ≠ 1),
      List.getElem?_set_self (by simpa using h1)]
  rw [List.getElem?_set_ne (by omega : (3:Nat) ≠ 2),
      List.getElem?_set_self (by simpa using h2)]
  rw [List.getElem?_set_self (by simpa using h3)]
  simp only [Option.getD_some]
  omega

theorem length_wavAudioData (sample : Nat → Int) :
    (wavAudioData sample).length = wavNumSamples * 2 := by
  unfold wavAudioData
  rw [length_foldl_set _ _ (fun b a => by simp)]
  simp

theorem getD_append_left (l1 l2 : List Nat) (i : Nat) (h : i < l1.length) :
    (l1 ++ l2).getD i 0 = l1.getD i 0 := by
  simp [List.getD_eq_getElem?_getD, List.getElem?_append_left h]

theorem length_wavHeader : wavHeader.length = 44 := by decide

theorem length_mdatStep (sine rand : Nat → Nat) (buf : List Nat) (i : Nat) :
    (mdatStep sine rand buf i).length = buf.length := by
  unfold mdatStep
  split
  · simp
  · split <;> simp

theorem length_mdatBox (sine rand : Nat → Nat) (size : Nat) :
    (mdatBox sine rand size).length = size + 8 := by
  unfold mdatBox
  rw [length_foldl_set _ _ (length_mdatStep sine rand)]
  simp

theorem mdatStep_getD_lt (sine rand : Nat → Nat) (B : List Nat) (n p : Nat)
    (h : p < n) :
    (mdatStep sine rand B n).getD (p + 8) 0 = B.getD (p + 8) 0 := by
  unfold mdatStep
  split
  · rw [List.getD_eq_getElem?_getD, List.getD_eq_getElem?_getD,
        List.getElem?_set_ne (by omega : n + 11 ≠ p + 8),
        List.getElem?_set_ne (by omega : n + 10 ≠ p + 8),
        List.getElem?_set_ne (by omega : n + 9 ≠ p + 8),
        List.getElem?_set_ne (by omega : n + 8 ≠ p + 8)]
  · split
    · rw [List.getD_eq_getElem?_getD, List.getD_eq_getElem?_getD,
          List.getElem?_set_ne (by omega : n + 8 ≠ p + 8)]
    · rw [List.getD_eq_getElem?_getD, List.getD_eq_getElem?_getD,
          List.getElem?_set_ne (by omega : n + 8 ≠ p + 8)]

theorem mdatStep_getD_self (sine rand : Nat → Nat) (B : List Nat) (n : Nat)
    (hlen : n + 8 < B.length) :
    (mdatStep sine rand B n).getD (n + 8) 0 = mdatFinalByte sine rand n := by
  by_cases h100 : n % 100 = 0
  · simp only [mdatStep, mdatFinalByte, if_pos h100]
    rw [List.getD_eq_getElem?_getD,
        List.getElem?_set_ne (by omega : n + 11 ≠ n + 8),
        List.getElem?_set_ne (by omega : n + 10 ≠ n + 8),
        List.getElem?_set_ne (by omega : n + 9 ≠ n + 8),
        List.getElem?_set_self hlen]
    rfl
  · by_cases h50 : n % 50 = 0
    · simp only [mdatStep, mdatFinalByte, if_neg h100, if_pos h50]
      rw [List.getD_eq_getElem?_getD, List.getElem?_set_self hlen]
      rfl
    · simp only [mdatStep, mdatFinalByte, if_neg h100, if_neg h50]
      rw [List.getD_eq_getElem?_getD, List.getElem?_set_self hlen]
      rfl

/-- Last write wins: after the first `n` iterations of the fill loop, every
position `p < n` holds its final byte. -/
theorem mdatBox_partial_getD (sine rand : Nat → Nat) (size : Nat)
    (init : List Nat) (hinit : init.length = size + 8) :
    ∀ n, n ≤ size → ∀ p, p < n →
      ((List.range n).foldl (mdatStep sine rand) init).getD (p + 8) 0 =
        mdatFinalByte sine rand p := by
  intro n
  induction n with
  | zero => intro _ p hp; omega
  | succ n ih =>
    intro hn p hp
    rw [List.range_succ, List.foldl_append, List.foldl_cons, List.foldl_nil]
    have lenB : ((List.range n).foldl (mdatStep sine rand) init).length =
        size + 8 := by
      rw [length_foldl_set _ _ (length_mdatStep sine rand), hinit]
    by_cases hpn : p < n
    · rw [mdatStep_getD_lt sine rand _ n p hpn]
      exact ih (by omega) p hpn
    · have hpe : p = n := by omega
      subst hpe
      exact mdatStep_getD_self sine rand _ p (by omega)

/-- Every payload byte of the mdat box equals its final-write value. -/
theorem mdatPayload_getD (sine rand : Nat → Nat) (size p : Nat)
    (hp : p < size) :
    (mdatPayload sine rand size).getD p 0 = mdatFinalByte sine rand p := by
  unfold mdatPayload
  rw [List.getD_eq_getElem?_getD, List.getElem?_drop, Nat.add_comm 8 p,
      ← List.getD_eq_getElem?_getD]
  exact mdatBox_partial_getD sine rand size _ (by simp) size
    (Nat.le_refl size) p hp

theorem length_mvhdBox (now dur : Nat) : (mvhdBox now dur).length = 108 := by
  simp [mvhdBox]

theorem length_tkhdBox (now dur w h : Nat) :
    (tkhdBox now dur w h).length = 92 := by
  simp [tkhdBox]

theorem length_ftypBytes : ftypBytes.length = 32 := by decide

theorem length_generateYouTubeVideo (fname : String) (now : Nat)
    (sine rand : Nat → Nat) :
    (generateYouTubeVideo fname now sine rand).length = ytMdatSize fname + 240 := by
  unfold generateYouTubeVideo
  simp only [length_writeUInt32BE, List.length_append, length_mvhdBox,
    length_tkhdBox, length_ftypBytes, length_mdatBox]
  omega

/-- A chain whose last producer succeeds with a one-element list never
yields the empty result. -/
theorem runFallback_append_ok_singleton {ε α : Type}
    (ps : List (Except ε (List α))) (x : α) :
    runFallback (ps ++ [Except.ok [x]]) ≠ [] := by
  induction ps with
  | nil => simp [runFallback]
  | cons p rest ih =>
    match p with
    | Except.error e => simpa [runFallback] using ih
    | Except.ok r =>
      by_cases hr : r.length > 0
      · simp only [List.cons_append, runFallback, if_pos hr]
        intro h
        subst h
        simp at hr
      · simpa [runFallback, hr] using ih

theorem readUInt32LE_append_left (l1 l2 : List Nat) (i : Nat)
    (h : i + 3 < l1.length) :
    readUInt32LE (l1 ++ l2) i = readUInt32LE l1 i := by
  unfold readUInt32LE
  rw [getD_append_left _ _ i (by omega), getD_append_left _ _ (i + 1) (by omega),
      getD_append_left _ _ (i + 2) (by omega),
      getD_append_left _ _ (i + 3) (by omega)]

/-- Two candidate prefixes with different head characters cannot both be
prefixes of the same list. -/
theorem isPrefixOf_false_of_head_ne (c1 c2 : Char) (p1 p2 l : List Char)
    (hne : c2 ≠ c1) (h : (c1 :: p1).isPrefixOf l = true) :
    (c2 :: p2).isPrefixOf l = false := by
  cases l with
  | nil => simp [List.isPrefixOf] at h
  | cons d t =>
    simp only [List.isPrefixOf, Bool.and_eq_true, beq_iff_eq] at h
    obtain ⟨h1, -⟩ := h
    subst h1
    simp [List.isPrefixOf, hne]

/-! ## Claim theorems -/

/-- C2: the WAV builder with duration 3 s, frequency 440 Hz and sample
rate 44100 returns a buffer of exactly `44 + 44100*3*2` bytes, whose RIFF
chunk size field (little-endian 32-bit at offset 4) equals
`36 + numSamples*2` and whose data chunk size field (little-endian 32-bit
at offset 40) equals `numSamples*2`, where `numSamples = 44100*3`. -/
theorem wav_builder_size_and_header (sample : Nat → Int) :
    (generateRealAudioFile sample).length = 44 + 44100 * 3 * 2 ∧
    readUInt32LE (generateRealAudioFile sample) 4 = 36 + (44100 * 3) * 2 ∧
    readUInt32LE (generateRealAudioFile sample) 40 = (44100 * 3) * 2 := by
  refine ⟨?_, ?_, ?_⟩
  · unfold generateRealAudioFile
    rw [List.length_append, length_wavHeader, length_wavAudioData]
    norm_num [wavNumSamples, wavSampleRate, wavDuration]
  · unfold generateRealAudioFile
    rw [readUInt32LE_append_left _ _ 4 (by rw [length_wavHeader]; omega)]
    decide
  · unfold generateRealAudioFile
    rw [readUInt32LE_append_left _ _ 40 (by rw [length_wavHeader]; omega)]
    decide

/-- C4: the Fallback Chain Executor, given producers of the shape
`[fail, fail, succeed [x]]`, returns `[x]`; it is a total function on the
producer outcomes, so no exception thrown by a failing producer reaches
the caller. -/
theorem fallback_two_failures_then_success {ε α : Type} (e1 e2 : ε) (x : α) :
    runFallback [Except.error e1, Except.error e2, Except.ok [x]] = [x] := by
  simp [runFallback]

/-- C5: the Fallback Chain Executor, given producers that every one either
throw or return the empty list, returns the empty result (and, being a
total function on the producer outcomes, does not throw). -/
theorem fallback_all_fail_or_empty {ε α : Type}
    (ps : List (Except ε (List α)))
    (h : ∀ p ∈ ps, (∃ e, p = Except.error e) ∨ p = Except.ok []) :
    runFallback ps = [] := by
  induction ps with
  | nil => rfl
  | cons p rest ih =>
    have hp := h p (List.mem_cons_self p rest)
    have hrest := fun q hq => h q (List.mem_cons_of_mem p hq)
    rcases hp with ⟨e, rfl⟩ | rfl
    · simpa [runFallback] using ih hrest
    · simpa [runFallback] using ih hrest

/-- Witness for the C5 theorem: one throwing producer followed by one empty
success yields the empty result. -/
theorem fallback_all_fail_or_empty_witness :
    runFallback [Except.error "boom", Except.ok ([] : List Nat)] = [] := by
  apply fallback_all_fail_or_empty
  intro p hp
  simp only [List.mem_cons, List.not_mem_nil, or_false] at hp
  rcases hp with rfl | rfl
  · exact Or.inl ⟨"boom", rfl⟩
  · exact Or.inr rfl

/-- C10: the concrete `searchWithFallback` of src/unnamed/part_000 always
registers the local fallback producer last; that producer returns a fixed
one-element list and cannot throw, so the function returns a non-empty
list for every query and every outcome of the optional external
producers — the trailing `return []` is unreachable. -/
theorem searchWithFallback_never_empty
    (serper zai : Option (Except String (List SearchResult))) (q : String) :
    searchWithFallback serper zai q ≠ [] := by
  unfold searchWithFallback
  exact runFallback_append_ok_singleton _ _

/-- C9: for every filename, the buffer built by `generateYouTubeVideo` has
total length `mdatSize + 240` (`mdatSize` being 800000 when the filename
contains `720p`, else 300000), its first four bytes hold that total length
big-endian (the ftyp box length field at offset 0 is overwritten with the
whole-file size after concatenation), and that leading length field does
not equal the ftyp box length 32. -/
theorem generateYouTubeVideo_total_size (fname : String) (now : Nat)
    (sine rand : Nat → Nat) :
    (generateYouTubeVideo fname now sine rand).length = ytMdatSize fname + 240 ∧
    readUInt32BE (generateYouTubeVideo fname now sine rand) 0 =
      ytMdatSize fname + 240 ∧
    readUInt32BE (generateYouTubeVideo fname now sine rand) 0 ≠ 32 := by
  have hlt : ytMdatSize fname + 240 < 4294967296 := by
    unfold ytMdatSize
    split <;> omega
  have hread : readUInt32BE (generateYouTubeVideo fname now sine rand) 0 =
      ytMdatSize fname + 240 := by
    unfold generateYouTubeVideo
    rw [readUInt32BE_writeUInt32BE]
    · simp only [List.length_append, length_mvhdBox, length_tkhdBox,
        length_ftypBytes, length_mdatBox]
      omega
    · simp only [List.length_append, length_mvhdBox, length_tkhdBox,
        length_ftypBytes, length_mdatBox]
      omega
    · simp only [List.length_append, length_mvhdBox, length_tkhdBox,
        length_ftypBytes, length_mdatBox]
      omega
  refine ⟨length_generateYouTubeVideo fname now sine rand, hread, ?_⟩
  rw [hread]
  unfold ytMdatSize
  split <;> omega

set_option maxRecDepth 10000

/-- C1 counterexample: at payload size 100 and offset 0, the claim as
stated fails.  Iteration 0 of the fill loop writes the four marker bytes,
but iterations 1, 2 and 3 overwrite three of them with clamped-sine fill
bytes, so the final payload byte at offset 1 is 129 (the source computes
`Math.floor(Math.sin(0.01)*127+128) = 129`), not 0x00, and the byte at
offset 2 is a sine byte as well, not 0x01. -/
theorem mdat_marker_claim_counterexample :
    ¬ ((mdatPayload sineC randC 100).getD 0 0 = 0 ∧
       (mdatPayload sineC randC 100).getD 1 0 = 0 ∧
       (mdatPayload sineC randC 100).getD 2 0 = 1) := by
  decide

/-- C1 (amended): for every payload size that is a positive multiple of
100 (the builder only uses 300000 and 800000) and every offset `k` with
`k % 100 = 0` and `k + 2` inside the payload, the payload holds 0x00 at
`k`, but the byte at `k + 1` is the clamped-sine fill byte, which lies in
`[1, 255]` and is therefore not 0x00 — the loop iterations following a
marker iteration overwrite all marker bytes except the first, so the
3-byte sequence 0x00 0x00 0x01 does not start at offset `k`. -/
theorem mdat_marker_first_byte_only (sine rand : Nat → Nat)
    (hs : ∀ i, 1 ≤ sine i ∧ sine i ≤ 255)
    (size : Nat) (hsize : 100 ≤ size) (hmod : size % 100 = 0)
    (k : Nat) (hk : k % 100 = 0) (hk2 : k + 2 < size) :
    (mdatPayload sine rand size).getD k 0 = 0 ∧
    (mdatPayload sine rand size).getD (k + 1) 0 = sine (k + 1) ∧
    (mdatPayload sine rand size).getD (k + 1) 0 ≠ 0 := by
  have e0 := mdatPayload_getD sine rand size k (by omega)
  have e1 := mdatPayload_getD sine rand size (k + 1) (by omega)
  rw [e0, e1]
  unfold mdatFinalByte
  rw [if_pos hk, if_neg (by omega : ¬ (k + 1) % 100 = 0),
      if_neg (by omega : ¬ (k + 1) % 50 = 0)]
  exact ⟨rfl, rfl, by have := (hs (k + 1)).1; omega⟩

/-- Witness for the amended C1 theorem at the concrete fill instances,
size 100 and offset 0. -/
theorem mdat_marker_first_byte_only_witness :
    (mdatPayload sineC randC 100).getD 0 0 = 0 ∧
    (mdatPayload sineC randC 100).getD 1 0 ≠ 0 := by
  have h := mdat_marker_first_byte_only sineC randC
    (fun i => by simp only [sineC]; split <;> omega)
    100 (by omega) (by omega) 0 (by omega) (by omega)
  exact ⟨h.1, h.2.2⟩

/-- C3 counterexample: an error escaping the search-and-synthesis body of
POST /chat with a valid message is answered by the catch-all path, whose
`NextResponse.json` call passes no status and therefore defaults to 200 —
not 500 as claimed. -/
theorem chat_catch_all_status_not_500 :
    (chatPOST (some "hello") (Except.error "boom")).status ≠ 500 := by
  decide

/-- C3 (amended): an unhandled error in the GET /files handler yields
status 500 with a generic message, but the POST /chat catch-all path
responds with the generic apology and the original error text attached at
the default status 200, not 500. -/
theorem unhandled_error_statuses (e m : String) (hm : trimStr m ≠ "") :
    (filesGETCaught (Except.error e)).status = 500 ∧
    (chatPOST (some m) (Except.error e)).status = 200 ∧
    (chatPOST (some m) (Except.error e)).response = some chatApology ∧
    (chatPOST (some m) (Except.error e)).errorText = some e := by
  refine ⟨rfl, ?_, ?_, ?_⟩ <;> simp [chatPOST, hm]

/-- Witness for the amended C3 theorem on a concrete message and error. -/
theorem unhandled_error_statuses_witness :
    (filesGETCaught (Except.error "disk failure")).status = 500 ∧
    (chatPOST (some "hello") (Except.error "disk failure")).status = 200 := by
  have h := unhandled_error_statuses "disk failure" "hello" (by decide)
  exact ⟨h.1, h.2.1⟩

/-- C8 counterexample: the query `reason vs emotion` has the form
`X vs Y` (it contains the infix ` vs `), yet the classifier returns
`explanation`, not `comparison`: the `includes(reason)` check of the
explanation rule is evaluated before the comparison rule. -/
theorem determineQueryType_vs_counterexample :
    containsStr "reason vs emotion" " vs " = true ∧
    determineQueryType "reason vs emotion" = "explanation" := by
  refine ⟨by decide, by decide⟩

/-- C8 (amended): a query whose lowercase form starts with `what is` is
classified `definition`; one starting with `how to` is classified `howto`
(no earlier rule can match such a query); one containing `vs` is
classified `comparison` provided none of the earlier definition, howto and
explanation checks match; and a query matching none of the checked
patterns is classified `general`. -/
theorem determineQueryType_rules (q : String) :
    (startsWithStr (lowerStr q) "what is" = true →
      determineQueryType q = "definition") ∧
    (startsWithStr (lowerStr q) "how to" = true →
      determineQueryType q = "howto") ∧
    (containsStr (lowerStr q) "vs" = true →
      (startsWithStr (lowerStr q) "what is" ||
        startsWithStr (lowerStr q) "define") = false →
      (startsWithStr (lowerStr q) "how to" ||
        containsStr (lowerStr q) "how do") = false →
      (startsWithStr (lowerStr q) "why" ||
        containsStr (lowerStr q) "reason") = false →
      determineQueryType q = "comparison") ∧
    ((startsWithStr (lowerStr q) "what is" ||
        startsWithStr (lowerStr q) "define") = false →
      (startsWithStr (lowerStr q) "how to" ||
        containsStr (lowerStr q) "how do") = false →
      (startsWithStr (lowerStr q) "why" ||
        containsStr (lowerStr q) "reason") = false →
      (containsStr (lowerStr q) "compare" || containsStr (lowerStr q) "vs" ||
        containsStr (lowerStr q) "versus") = false →
      (containsStr (lowerStr q) "review" || containsStr (lowerStr q) "rating" ||
        containsStr (lowerStr q) "opinion") = false →
      (containsStr (lowerStr q) "history" ||
        containsStr (lowerStr q) "origin") = false →
      (containsStr (lowerStr q) "news" || containsStr (lowerStr q) "recent" ||
        containsStr (lowerStr q) "latest") = false →
      (containsStr (lowerStr q) "benefit" ||
        containsStr (lowerStr q) "advantage" ||
        containsStr (lowerStr q) "pro") = false →
      (containsStr (lowerStr q) "disadvantage" ||
        containsStr (lowerStr q) "con" ||
        containsStr (lowerStr q) "risk") = false →
      determineQueryType q = "general") := by
  refine ⟨?_, ?_, ?_, ?_⟩
  · intro h
    simp [determineQueryType, h]
  · intro h
    have hw : startsWithStr (lowerStr q) "what is" = false := by
      unfold startsWithStr at h ⊢
      rw [show "what is".toList = 'w' :: "hat is".toList from rfl]
      rw [show "how to".toList = 'h' :: "ow to".toList from rfl] at h
      exact isPrefixOf_false_of_head_ne 'h' 'w' _ _ _ (by decide) h
    have hd : startsWithStr (lowerStr q) "define" = false := by
      unfold startsWithStr at h ⊢
      rw [show "define".toList = 'd' :: "efine".toList from rfl]
      rw [show "how to".toList = 'h' :: "ow to".toList from rfl] at h
      exact isPrefixOf_false_of_head_ne 'h' 'd' _ _ _ (by decide) h
    simp [determineQueryType, h, hw, hd]
  · intro hvs h1 h2 h3
    simp [determineQueryType, h1, h2, h3, hvs]
  · intro h1 h2 h3 h4 h5 h6 h7 h8 h9
    simp [determineQueryType, h1, h2, h3, h4, h5, h6, h7, h8, h9]

/-- Witness for the amended C8 theorem: one concrete query per clause. -/
theorem determineQueryType_rules_witness :
    determineQueryType "What is photosynthesis" = "definition" ∧
    determineQueryType "How to plant a tree" = "howto" ∧
    determineQueryType "apples vs oranges" = "comparison" ∧
    determineQueryType "hello world" = "general" := by
  refine ⟨(determineQueryType_rules "What is photosynthesis").1 (by decide),
    (determineQueryType_rules "How to plant a tree").2.1 (by decide),
    (determineQueryType_rules "apples vs oranges").2.2.1 (by decide)
      (by decide) (by decide) (by decide),
    (determineQueryType_rules "hello world").2.2.2 (by decide) (by decide)
      (by decide) (by decide) (by decide) (by decide) (by decide) (by decide)
      (by decide)⟩

/-- C6: GET /files returns 400 when the filename query parameter is
missing (the handler's falsy check treats the empty value the same way);
404 when the named file is absent from the store and not eligible for
on-demand synthesis (containing `youtube_` and ending in `.mp4`); and
otherwise 200 carrying the stored or newly synthesized bytes, the
extension-derived content type, and an attachment disposition naming the
file. -/
theorem filesGET_spec (cwd : List String)
    (store : List String → Option (List Nat)) (now : Nat)
    (sine rand : Nat → Nat) :
    (filesGET cwd store now sine rand none).status = 400 ∧
    (filesGET cwd store now sine rand (some "")).status = 400 ∧
    (∀ f, f ≠ "" → store (joinPath cwd f) = none →
      eligibleForSynthesis f = false →
      filesGET cwd store now sine rand (some f) =
        { status := 404, errorMsg := some "File not found" }) ∧
    (∀ f b, f ≠ "" → store (joinPath cwd f) = some b →
      filesGET cwd store now sine rand (some f) =
        { status := 200, contentType := some (mimeFor f),
          attachment := some f, bytes := some b }) ∧
    (∀ f, f ≠ "" → store (joinPath cwd f) = none →
      eligibleForSynthesis f = true →
      filesGET cwd store now sine rand (some f) =
        { status := 200, contentType := some (mimeFor f),
          attachment := some f,
          bytes := some (generateYouTubeVideo f now sine rand) }) := by
  refine ⟨rfl, rfl, ?_, ?_, ?_⟩
  · intro f hf hstore helig
    simp [filesGET, hf, hstore, helig]
  · intro f b hf hstore
    simp [filesGET, hf, hstore]
  · intro f hf hstore helig
    simp [filesGET, hf, hstore, helig]

/-- Witness for the C6 theorem: a concrete store holding one text file,
exercised on a missing parameter, an absent ineligible file, a stored
file, and an absent eligible file. -/
theorem filesGET_spec_witness :
    (filesGET ["app"] storeC 0 sineC randC none).status = 400 ∧
    (filesGET ["app"] storeC 0 sineC randC (some "nope.bin")).status = 404 ∧
    (filesGET ["app"] storeC 0 sineC randC (some "a.txt")).bytes =
      some [104, 105] ∧
    (filesGET ["app"] storeC 0 sineC randC
      (some "youtube_v_720p_1.mp4")).status = 200 := by
  have h := filesGET_spec ["app"] storeC 0 sineC randC
  have h404 := h.2.2.1 "nope.bin" (by decide) (by decide) (by decide)
  have h200 := h.2.2.2.1 "a.txt" [104, 105] (by decide) (by decide)
  have hgen := h.2.2.2.2 "youtube_v_720p_1.mp4" (by decide) (by decide)
    (by decide)
  refine ⟨h.1, ?_, ?_, ?_⟩
  · rw [h404]
  · rw [h200]
  · rw [hgen]

/-- C7: the GET /files handler joins the attacker-controlled filename into
the store directory path without any validation: every non-empty filename
reaches the store lookup (the 400 validation branch is never taken), and
for the traversal filename `../../etc/passwd` (which contains `../`) the
joined-and-normalised path escapes the `db` store directory — it is not an
extension of `cwd ++ [db]` — while the handler still proceeds to the
existence check and read logic, answering 404 from an empty store rather
than any validation error. -/
theorem filesGET_path_traversal :
    (∀ (cwd : List String) (store : List String → Option (List Nat))
      (now : Nat) (sine rand : Nat → Nat) (f : String), f ≠ "" →
      (filesGET cwd store now sine rand (some f)).status ≠ 400) ∧
    containsStr "../../etc/passwd" "../" = true ∧
    (["srv", "cks", "db"].isPrefixOf
      (joinPath ["srv", "cks"] "../../etc/passwd")) = false ∧
    (filesGET ["srv", "cks"] (fun _ => none) 0 sineC randC
      (some "../../etc/passwd")).status = 404 := by
  refine ⟨?_, by decide, by decide, by decide⟩
  intro cwd store now sine rand f hf
  rcases hst : store (joinPath cwd f) with _ | b
  · by_cases he : eligibleForSynthesis f <;>
      simp [filesGET, hf, hst, he]
  · simp [filesGET, hf, hst]

/-- Witness for the C7 theorem at a concrete non-empty filename. -/
theorem filesGET_path_traversal_witness :
    (filesGET ["srv", "cks"] (fun _ => none) 0 sineC randC
      (some "x.bin")).status ≠ 400 :=
  filesGET_path_traversal.1 ["srv", "cks"] (fun _ => none) 0 sineC randC
    "x.bin" (by decide)

end CKS
